import Mathlib

/-!
# Verification of the food-analysis backend

Shallow embedding of the core services of the `food` repository
(label mapper, nutrition engine, flavor-alternative finder, recipe
aggregator with cache) together with theorems settling the spec claims.

JavaScript strings are modelled by `String`, JS numbers by `ℚ`
(all arithmetic in the relevant code paths is exact on rationals),
`null`/missing values by `Option`, and JS objects holding data tables by
association lists in insertion order (JS object iteration order for
string keys).
-/

namespace Food

/-- JS `a.includes(b)`: `b` is a contiguous substring of `a`. -/
def jsIncludes (a b : String) : Bool :=
  decide (b.toList <:+: a.toList)

/-- JS `Math.round`: round half toward +∞, i.e. `⌊x + 1/2⌋`. -/
def jsRound (q : ℚ) : ℤ := ⌊q + 1/2⌋

/-- JS `Math.max(0, Math.min(100, s))`. -/
def clamp100 (s : ℚ) : ℚ := max 0 (min 100 s)

/-- Property lookup in a JS object literal viewed as an association
list in insertion order (keys are unique). -/
def objGet (m : List (String × String)) (k : String) : Option String :=
  (m.find? (fun kv => kv.1 == k)).map (·.2)

/-! ## Label Mapper (`FoodDetector`, `src/unnamed/part_006`) -/

/-- The static `LABEL_MAP` table, in source insertion order. -/
def LABEL_MAP : List (String × String) :=
  [ ("pizza", "pizza"),
    ("cheeseburger", "burger"),
    ("hamburger", "burger"),
    ("french_loaf", "burger"),
    ("bagel", "burger"),
    ("hotdog", "burger"),
    ("hot_dog", "burger"),
    ("french fries", "french fries"),
    ("ice_cream", "ice cream"),
    ("ice cream", "ice cream"),
    ("ice_lolly", "ice cream"),
    ("chocolate_sauce", "cake"),
    ("trifle", "cake"),
    ("butternut_squash", "samosa"),
    ("butternut squash", "samosa"),
    ("acorn_squash", "samosa"),
    ("acorn squash", "samosa"),
    ("bell_pepper", "samosa"),
    ("mushroom", "samosa"),
    ("cucumber", "salad"),
    ("zucchini", "salad"),
    ("broccoli", "salad"),
    ("cauliflower", "salad"),
    ("head_cabbage", "salad"),
    ("artichoke", "salad"),
    ("corn", "biryani"),
    ("ear", "biryani"),
    ("banana", "smoothie"),
    ("strawberry", "smoothie"),
    ("orange", "smoothie"),
    ("lemon", "smoothie"),
    ("pineapple", "smoothie"),
    ("pomegranate", "smoothie"),
    ("fig", "smoothie"),
    ("custard_apple", "smoothie"),
    ("jackfruit", "smoothie"),
    ("mango", "smoothie"),
    ("carbonara", "pasta"),
    ("spaghetti", "pasta"),
    ("spaghetti_squash", "pasta"),
    ("meat_loaf", "burger"),
    ("meatloaf", "burger"),
    ("burrito", "burger"),
    ("guacamole", "salad"),
    ("caesar_salad", "salad"),
    ("plate", "biryani"),
    ("potpie", "biryani"),
    ("pot_pie", "biryani"),
    ("consomme", "dal"),
    ("soup_bowl", "dal"),
    ("samosa", "samosa"),
    ("dosa", "dosa"),
    ("idli", "idli"),
    ("biryani", "biryani"),
    ("naan", "biryani"),
    ("dal", "dal"),
    ("dhal", "dal"),
    ("curry", "dal"),
    ("masala", "paneer tikka"),
    ("hen", "grilled chicken"),
    ("rooster", "tandoori chicken"),
    ("drumstick", "tandoori chicken"),
    ("pretzel", "noodles"),
    ("ramen", "noodles"),
    ("noodles", "noodles"),
    ("ladle", "dal"),
    ("wok", "fried rice"),
    ("frying_pan", "fried rice"),
    ("spatula", "dosa"),
    ("mixing_bowl", "oatmeal"),
    ("waffle", "dosa"),
    ("pancake", "dosa"),
    ("oatmeal", "oatmeal"),
    ("porridge", "oatmeal"),
    ("dough", "pizza"),
    ("bakery", "cake"),
    ("fried_rice", "fried rice"),
    ("fried rice", "fried rice"),
    ("rice", "biryani"),
    ("sushi", "sushi"),
    ("tray", "biryani"),
    ("dining_table", "biryani"),
    ("restaurant", "biryani"),
    ("menu", "biryani"),
    ("wooden_spoon", "dal"),
    ("crock_pot", "dal"),
    ("dutch_oven", "biryani"),
    ("caldron", "dal"),
    ("mortar", "paneer tikka") ]

/-- A separator character for the normalisation regex `[_\s]+`. -/
def isSep (c : Char) : Bool := c == '_' || c.isWhitespace

/-- `replace(/[_\s]+/g, '_')`, one character at a time; the flag
records whether the previous character belonged to a separator run
(which already emitted its single `_`). -/
def collapseSepAux : Bool → List Char → List Char
  | _, [] => []
  | inRun, c :: rest =>
    if isSep c then
      if inRun then collapseSepAux true rest
      else '_' :: collapseSepAux true rest
    else c :: collapseSepAux false rest

/-- `replace(/[_\s]+/g, '_')`: collapse each run of separators to one `_`. -/
def collapseSep (l : List Char) : List Char := collapseSepAux false l

/-- JS `toLowerCase` on a character list (ASCII case mapping). -/
def lowerChars (l : List Char) : List Char := l.map Char.toLower

/-- JS `trim`: drop whitespace from both ends. -/
def trimChars (l : List Char) : List Char :=
  ((l.dropWhile Char.isWhitespace).reverse.dropWhile Char.isWhitespace).reverse

/-- `label.toLowerCase().trim().replace(/[_\s]+/g, '_')`. -/
def normalizeLabel (label : String) : String :=
  String.mk (collapseSep (trimChars (lowerChars label.toList)))

/-- `normalized.replace(/_/g, ' ')`. -/
def underscoreToSpace (s : String) : String :=
  String.mk (s.toList.map (fun c => if c == '_' then ' ' else c))

/-- The body of `FoodDetector.mapLabel` after normalisation:
direct lookup, then space form, then first partial match in table
order, else passthrough of the space form. -/
def mapLabelNorm (normalized : String) : String :=
  match objGet LABEL_MAP normalized with
  | some v => v
  | none =>
    let withSpaces := underscoreToSpace normalized
    match objGet LABEL_MAP withSpaces with
    | some v => v
    | none =>
      match LABEL_MAP.find?
          (fun kv => jsIncludes normalized kv.1 || jsIncludes kv.1 normalized) with
      | some kv => kv.2
      | none => withSpaces

/-- `FoodDetector.mapLabel`. -/
def mapLabel (label : String) : String :=
  mapLabelNorm (normalizeLabel label)

/-- `FoodDetector.getSupportedFoods`. -/
def getSupportedFoods : List String :=
  [ "samosa", "pizza", "burger", "french fries", "salad",
    "grilled chicken", "biryani", "dal", "idli", "dosa",
    "fried rice", "noodles", "pasta", "paneer tikka", "tandoori chicken",
    "ice cream", "cake", "oatmeal", "smoothie", "sushi" ]

/-- `FoodDetector.isKnownFood`. -/
def isKnownFood (label : String) : Bool :=
  getSupportedFoods.contains (mapLabel label)

/-! ## Nutrition Engine (`src/backend/services/nutritionEngine.js`)

`nutrition.json` is not part of `src/`, so the nutrition table is a
parameter `db`, an association list in insertion order whose entries
carry the numeric fields and the `fried` / `refined` flags the engine
reads. -/

/-- JS `s.toLowerCase()` (ASCII). -/
def jsLower (s : String) : String := String.mk (lowerChars s.toList)

/-- JS `s.toLowerCase().trim()`. -/
def jsLowerTrim (s : String) : String :=
  String.mk (trimChars (lowerChars s.toList))

/-- One entry of `nutrition.json` (fields read by the engine). -/
structure Nutrition where
  calories : ℚ
  carbs : ℚ
  protein : ℚ
  fat : ℚ
  fiber : ℚ
  sugar : ℚ
  sodium : ℚ
  fried : Bool
  refined : Bool
  deriving DecidableEq, Repr

/-- `NutritionEngine.getNutrition`: exact key, else first fuzzy match
(`k.includes(key) || key.includes(k)`) in insertion order. -/
def getNutrition (db : List (String × Nutrition)) (foodName : String) :
    Option Nutrition :=
  let key := jsLowerTrim foodName
  match db.find? (fun kv => kv.1 == key) with
  | some kv => some kv.2
  | none =>
    match db.find? (fun kv => jsIncludes kv.1 key || jsIncludes key kv.1) with
    | some kv => some kv.2
    | none => none

/-- `NutritionEngine.computeHealthScore`: neutral 70 plus threshold
adjustments, clamped to `[0, 100]`; `null` when the food is unknown. -/
def computeHealthScore (db : List (String × Nutrition)) (foodName : String) :
    Option ℚ :=
  match getNutrition db foodName with
  | none => none
  | some n =>
    let s : ℚ := 70
    let s := if n.fried then s - 25 else s
    let s := if n.refined then s - 10 else s
    let s :=
      if n.calories > 300 then s - 15
      else if n.calories > 250 then s - 8
      else if n.calories < 150 then s + 10
      else s
    let s := if n.carbs > 40 then s - 10 else if n.carbs > 30 then s - 5 else s
    let s := if n.fat > 15 then s - 10 else if n.fat < 5 then s + 5 else s
    let s :=
      if n.protein > 20 then s + 15
      else if n.protein > 15 then s + 10
      else if n.protein > 10 then s + 5
      else s
    let s := if n.fiber > 4 then s + 8 else if n.fiber > 2 then s + 4 else s
    let s := if n.sugar > 20 then s - 15 else if n.sugar > 10 then s - 8 else s
    let s := if n.sodium > 600 then s - 8 else if n.sodium > 400 then s - 4 else s
    some (clamp100 s)

/-- `NutritionEngine.GOALS`. -/
def GOALS : List (String × String) :=
  [ ("weight_loss", "Weight Loss"),
    ("muscle_gain", "Muscle Gain"),
    ("diabetes_friendly", "Diabetes Friendly"),
    ("balanced_diet", "Balanced Diet") ]

/-- `this.GOALS[goal] || goal`. -/
def goalLabel (goal : String) : String := (objGet GOALS goal).getD goal

/-- Numeric interpolation `${x}` inside reason strings. JS decimal
formatting is approximated by the rational's canonical string; the
claims only ever measure the length of the reasons list. -/
def numStr (q : ℚ) : String := toString q

/-- The common and goal-specific checks of
`NutritionEngine.evaluateSuitability`: the accumulated reason strings
(in push order) and the total penalty. -/
def suitabilityChecks (n : Nutrition) (goal : String) :
    List String × ℚ :=
  let common : List (String × ℚ) :=
    (if n.fried then [("Deep-fried preparation is unhealthy", (30 : ℚ))] else []) ++
    (if n.refined then [("Contains refined ingredients", (10 : ℚ))] else [])
  let goalChecks : List (String × ℚ) :=
    if goal == "weight_loss" then
      (if n.calories > 250 then
        [("High calorie count (" ++ numStr n.calories ++ " kcal)", (20 : ℚ))] else []) ++
      (if n.fat > 15 then
        [("High fat content (" ++ numStr n.fat ++ "g)", (15 : ℚ))] else []) ++
      (if n.carbs > 30 then
        [("High carbohydrate content (" ++ numStr n.carbs ++ "g)", (10 : ℚ))] else []) ++
      (if n.sugar > 15 then
        [("High sugar content (" ++ numStr n.sugar ++ "g)", (10 : ℚ))] else [])
    else if goal == "muscle_gain" then
      (if n.protein < 10 then
        [("Low protein content (" ++ numStr n.protein ++ "g) — poor for muscle building", (25 : ℚ))] else []) ++
      (if n.protein < 15 then
        [("Moderate protein (" ++ numStr n.protein ++ "g) — could be higher", (10 : ℚ))] else []) ++
      (if n.calories < 100 then
        [("Very low-calorie — insufficient for muscle gain", (15 : ℚ))] else [])
    else if goal == "diabetes_friendly" then
      (if n.carbs > 30 then
        [("High carbohydrate content (" ++ numStr n.carbs ++ "g) — spikes blood sugar", (25 : ℚ))] else []) ++
      (if n.sugar > 10 then
        [("High sugar content (" ++ numStr n.sugar ++ "g)", (20 : ℚ))] else []) ++
      (if n.refined then
        [("Refined ingredients cause rapid blood sugar spikes", (15 : ℚ))] else []) ++
      (if n.fiber < 2 then
        [("Low fiber (" ++ numStr n.fiber ++ "g) — doesn't slow glucose absorption", (10 : ℚ))] else [])
    else if goal == "balanced_diet" then
      (if n.fried then
        [("Fried foods should be limited in a balanced diet", (15 : ℚ))] else []) ++
      (if n.fat > 20 then
        [("Excessive fat (" ++ numStr n.fat ++ "g)", (10 : ℚ))] else []) ++
      (if n.sugar > 15 then
        [("High sugar (" ++ numStr n.sugar ++ "g)", (10 : ℚ))] else []) ++
      (if n.sodium > 500 then
        [("High sodium (" ++ numStr n.sodium ++ "mg)", (5 : ℚ))] else [])
    else []
  let checks := common ++ goalChecks
  (checks.map (·.1), (checks.map (·.2)).sum)

/-- `str.charAt(0).toUpperCase() + str.slice(1)`. -/
def capFirst (s : String) : String :=
  match s.toList with
  | [] => ""
  | c :: rest => String.mk (c.toUpper :: rest)

/-- Result shape of `evaluateSuitability`; `goal` is `none` in the
food-not-found branch, where the JS object carries no `goal` key. -/
structure SuitabilityResult where
  suitable : Bool
  score : ℚ
  reasons : List String
  explanation : String
  goal : Option String
  deriving Repr

/-- `NutritionEngine.evaluateSuitability`. In the source,
`RecipeDBService.getRecipe(foodName)` is called without `await`, so
`recipe` is a pending Promise: always truthy, with
`recipe.cooking_method` undefined — hence the cooking note in the
unsuitable branch is always the literal " Its undefined preparation". -/
def evaluateSuitability (db : List (String × Nutrition)) (foodName goal : String) :
    SuitabilityResult :=
  match getNutrition db foodName with
  | none =>
    { suitable := false
      score := 0
      reasons := ["Food not found in our database."]
      explanation := "Unable to evaluate this food item."
      goal := none }
  | some n =>
    let checks := suitabilityChecks n goal
    let reasons := checks.1
    let penalty := checks.2
    let score := (computeHealthScore db foodName).getD 0
    let goalAdjustedScore := max 0 (score - penalty)
    let suitable := decide (goalAdjustedScore ≥ 50) && decide (reasons.length ≤ 1)
    let explanation :=
      if suitable then
        let base := "This food is a reasonable choice for your " ++
          goalLabel goal ++ " goals."
        match reasons.head? with
        | some r => base ++ " Minor note: " ++ jsLower r ++ "."
        | none => base
      else
        let cookingNote := " Its undefined preparation"
        let mainIssues := String.intercalate " and "
          ((reasons.take 2).map jsLower)
        capFirst mainIssues ++ cookingNote ++ " makes this food " ++
          (if suitable then "marginally suitable" else "not ideal") ++
          " for " ++ goalLabel goal ++ " goals."
    { suitable := suitable
      score := goalAdjustedScore
      reasons := reasons
      explanation := explanation
      goal := some (goalLabel goal) }

/-! ## Route-level scorers (`src/unnamed/part_007`) -/

/-- The route helper `calculateHealthScore(nutrition, goal)`: base 50,
goal branch (any goal other than weight_loss / muscle_gain falls into
the balanced-diet `else`), universal fiber / sugar / sodium
adjustments, clamped to `[0, 100]`. -/
def calculateHealthScore (n : Nutrition) (goal : String) : ℚ :=
  let s : ℚ := 50
  let s :=
    if goal == "weight_loss" then
      let s :=
        if n.calories < 200 then s + 20
        else if n.calories < 300 then s + 10
        else if n.calories > 500 then s - 20
        else s
      if n.fat < 10 then s + 15 else if n.fat > 20 then s - 15 else s
    else if goal == "muscle_gain" then
      let s :=
        if n.protein > 20 then s + 25
        else if n.protein > 10 then s + 15
        else if n.protein < 5 then s - 10
        else s
      if n.carbs > 30 then s + 10 else s
    else
      let s := if n.protein ≥ 10 && n.protein ≤ 25 then s + 15 else s
      let s := if n.carbs ≥ 20 && n.carbs ≤ 40 then s + 15 else s
      if n.fat ≥ 5 && n.fat ≤ 15 then s + 15 else s
  let s := if n.fiber > 5 then s + 10 else if n.fiber > 3 then s + 5 else s
  let s := if n.sugar > 15 then s - 15 else if n.sugar > 10 then s - 10 else s
  let s := if n.sodium > 800 then s - 10 else if n.sodium > 500 then s - 5 else s
  clamp100 s

/-- The route helper `getSuitability(score)`. -/
def getSuitability (score : ℚ) : String :=
  if score ≥ 80 then "Excellent"
  else if score ≥ 60 then "Good"
  else if score ≥ 40 then "Moderate"
  else "Poor"

/-! ### `GET /recipes/:id/precision-health` -/

/-- JS truthiness for a JSON numeric field: absent and `0` are falsy
(values are modelled by their parsed number). -/
def jsTruthyQ (o : Option ℚ) : Option ℚ :=
  match o with
  | some v => if v = 0 then none else some v
  | none => none

/-- `parseFloat(a || b || d)` over two candidate keys. -/
def pick2 (a b : Option ℚ) (d : ℚ) : ℚ :=
  ((jsTruthyQ a).orElse (fun _ => jsTruthyQ b)).getD d

/-- `Math.round(x * 10) / 10`. -/
def jsRound1 (q : ℚ) : ℚ := (jsRound (q * 10) : ℚ) / 10

/-- The exhaustive-nutrition payload as read by the precision-health
route; each pair of fields models the two key spellings consulted by
the `||` chains (primary Foodoscope key, then capitalised synonym). -/
structure DetailedNutrition where
  /-- `servings` -/
  servings : Option ℚ := none
  /-- `Servings` -/
  servingsCap : Option ℚ := none
  /-- `Energy (kcal)` -/
  energyKcal : Option ℚ := none
  /-- `Calories` -/
  caloriesCap : Option ℚ := none
  /-- `Sugars, total (g)` -/
  sugarsTotal : Option ℚ := none
  /-- `Sugar` -/
  sugarCap : Option ℚ := none
  /-- `Fatty acids, total saturated (g)` -/
  satFatTotal : Option ℚ := none
  /-- `Saturated Fat` -/
  satFatCap : Option ℚ := none
  /-- `Sodium, Na (mg)` -/
  sodiumNa : Option ℚ := none
  /-- `Sodium` -/
  sodiumCap : Option ℚ := none
  /-- `Fiber, total dietary (g)` -/
  fiberTotal : Option ℚ := none
  /-- `Fiber` -/
  fiberCap : Option ℚ := none
  /-- `Protein (g)` -/
  proteinG : Option ℚ := none
  /-- `Protein` -/
  proteinCap : Option ℚ := none
  deriving Repr

/-- Response payload of the precision-health route (score already
rounded to one decimal, as in the JSON response). -/
structure PrecisionResult where
  healthScore : ℚ
  category : String
  color : String
  benefits : List String
  riskFactors : List String
  psCalories : ℤ
  psSugar : ℚ
  psFiber : ℚ
  psProtein : ℚ
  deriving Repr

/-- The computation of `GET /recipes/:id/precision-health` after the
nutrition payload has been fetched: extract fields, convert to per
serving, apply the user formula, classify on the unrounded score, and
derive benefit / risk tags. -/
def precisionHealth (nd : DetailedNutrition) : PrecisionResult :=
  let servings := pick2 nd.servings nd.servingsCap 1
  let calories := pick2 nd.energyKcal nd.caloriesCap 0
  let sugar := pick2 nd.sugarsTotal nd.sugarCap 0
  let satFat := pick2 nd.satFatTotal nd.satFatCap 0
  let sodium := pick2 nd.sodiumNa nd.sodiumCap 0
  let fiber := pick2 nd.fiberTotal nd.fiberCap 0
  let protein := pick2 nd.proteinG nd.proteinCap 0
  let pCalories := calories / servings
  let pSugar := sugar / servings
  let pSatFat := satFat / servings
  let pSodium := sodium / servings
  let pFiber := fiber / servings
  let pProtein := protein / servings
  let healthScore :=
    (pFiber * 4 + pProtein * 3) - (pSugar * 3 + pSatFat * 4 + pSodium / 200 + pCalories / 100)
  let catColor : String × String :=
    if healthScore > 15 then ("Very Healthy", "#2ecc71")
    else if healthScore ≥ 5 then ("Moderate", "#f1c40f")
    else if healthScore ≥ 0 then ("Less Healthy", "#e67e22")
    else ("Unhealthy", "#e74c3c")
  let benefits :=
    (if pFiber > 3 then ["High Fiber"] else []) ++
    (if pProtein > 10 then ["High Protein"] else [])
  let riskFactors :=
    (if pSugar > 5 then ["High Sugar (Diabetes Risk)"] else []) ++
    (if pSodium > 400 then ["High Sodium (BP Risk)"] else []) ++
    (if pSatFat > 3 then ["High Saturated Fat (Heart Risk)"] else [])
  { healthScore := jsRound1 healthScore
    category := catColor.1
    color := catColor.2
    benefits := benefits
    riskFactors := riskFactors
    psCalories := jsRound pCalories
    psSugar := jsRound1 pSugar
    psFiber := jsRound1 pFiber
    psProtein := jsRound1 pProtein }

/-! ## Alternative Finder (`src/backend/services/flavorDB.js`)

`flavordb.json` is not part of `src/`; the flavor-similarity table is
a parameter. Modelled from the spec: an `AlternativeCandidate` carries
`{name, cooking_method, calories, similarity, reason}`; the source
additionally reads a `fried` flag on each candidate, so the candidate
record carries one. -/

/-- One similar-food candidate from `flavordb.json`, plus the `source`
tag that `getHealthierAlternatives` stamps on its output. -/
structure Alt where
  name : String
  cooking_method : String
  calories : ℚ
  similarity : ℚ
  reason : String
  fried : Bool
  source : String := ""
  deriving DecidableEq, Repr

/-- One `flavordb.json` entry. -/
structure FlavorEntry where
  similar_foods : List Alt
  deriving Repr

/-- Result shape of `FlavorDBService.getSimilarFoods`. -/
structure SimilarData where
  source : String
  query : String
  similar_foods : List Alt
  deriving Repr

/-- `FlavorDBService.getSimilarFoods`: exact key, else first fuzzy
match in insertion order, else `null`. -/
def getSimilarFoods (db : List (String × FlavorEntry)) (foodName : String) :
    Option SimilarData :=
  let key := jsLowerTrim foodName
  match db.find? (fun kv => kv.1 == key) with
  | some kv => some { source := "FlavorDB", query := foodName, similar_foods := kv.2.similar_foods }
  | none =>
    match db.find? (fun kv => jsIncludes kv.1 key || jsIncludes key kv.1) with
    | some kv => some { source := "FlavorDB", query := foodName, similar_foods := kv.2.similar_foods }
    | none => none

/-- The healthy-cooking-method allowlist. -/
def healthyMethods : List String :=
  ["steamed", "baked", "grilled", "roasted", "boiled", "raw", "blended"]

/-- `healthyMethods.some(m => f.cooking_method.toLowerCase().includes(m))`. -/
def isHealthyAlt (f : Alt) : Bool :=
  healthyMethods.any (fun m => jsIncludes (jsLower f.cooking_method) m)

/-- Sort key of the comparator: healthy methods first, then ascending
calories, then descending similarity (lexicographic). -/
def altKey (f : Alt) : ℕ ×ₗ (ℚ ×ₗ ℚ) :=
  toLex ((if isHealthyAlt f then 0 else 1 : ℕ), toLex (f.calories, -f.similarity))

/-- The total preorder induced by the JS comparator: `a` may be placed
no later than `b`. -/
def altLe (a b : Alt) : Prop := altKey a ≤ altKey b

instance : DecidableRel altLe := fun a b => inferInstanceAs (Decidable (altKey a ≤ altKey b))

instance : IsTotal Alt altLe := ⟨fun a b => le_total (altKey a) (altKey b)⟩

instance : IsTrans Alt altLe := ⟨fun _ _ _ hab hbc => le_trans hab hbc⟩

/-- `{...alt, source: 'FlavorDB'}`. -/
def markFlavorSource (f : Alt) : Alt := { f with source := "FlavorDB" }

/-- A cooking method indicates frying when it contains `fried` or
`fry` (the repository's own test, used on `recipe.cooking_method` in
the analyze route). -/
def methodIndicatesFrying (m : String) : Bool :=
  jsIncludes (jsLower m) "fried" || jsIncludes (jsLower m) "fry"

/-- Modelled from the spec: `flavordb.json` is not under `src/`, and
the spec describes fried-ness of an `AlternativeCandidate` as a
property of its cooking method; a table is consistent when each
candidate's `fried` flag says exactly that. -/
def friedConsistent (db : List (String × FlavorEntry)) : Prop :=
  ∀ kv ∈ db, ∀ f ∈ kv.2.similar_foods,
    f.fried = methodIndicatesFrying f.cooking_method

instance (db : List (String × FlavorEntry)) : Decidable (friedConsistent db) :=
  inferInstanceAs (Decidable (∀ kv ∈ db, ∀ f ∈ kv.2.similar_foods, _))

/-- The ordering the spec describes for alternatives: healthy cooking
methods first, then ascending calories, then descending similarity. -/
def specBefore (a b : Alt) : Prop :=
  (isHealthyAlt a = true ∧ isHealthyAlt b = false) ∨
  (isHealthyAlt a = isHealthyAlt b ∧
    (a.calories < b.calories ∨ (a.calories = b.calories ∧ b.similarity ≤ a.similarity)))

/-- `FlavorDBService.getHealthierAlternatives`: drop fried candidates
when the original is fried, sort by the comparator (JS `Array.sort`
is stable; modelled by stable insertion sort), take `limit`, stamp the
source. -/
def getHealthierAlternatives (db : List (String × FlavorEntry))
    (foodName : String) (originalIsFried : Bool) (limit : ℕ) : List Alt :=
  match getSimilarFoods db foodName with
  | none => []
  | some data =>
    let alternatives :=
      if originalIsFried then data.similar_foods.filter (fun f => !f.fried)
      else data.similar_foods
    let sorted := alternatives.insertionSort altLe
    (sorted.take limit).map markFlavorSource

/-! ## Data Aggregator (`src/backend/services/recipeDB.js`, first module)

Network I/O is modelled by passing the outcome of each `fetch` as an
explicit argument; the module-level cache and the clock are threaded
as state. A JS exception escaping `fetch`/`response.json()` is the
`netError` outcome (the surrounding `try` sends it to the local
fallback); `!response.ok` is `httpNotOk` (any non-2xx status,
including 429). -/

/-- `CACHE_TTL = 1000 * 60 * 60`. -/
def CACHE_TTL : ℕ := 1000 * 60 * 60

/-- A cache slot: `{ data, timestamp }`. -/
structure CacheEntry (α : Type) where
  data : α
  timestamp : ℕ
  deriving Repr

/-- `cache[key]` lookup. -/
def cacheGet {α : Type} (cache : List (String × CacheEntry α)) (k : String) :
    Option (CacheEntry α) :=
  (cache.find? (fun kv => kv.1 == k)).map (fun kv => kv.2)

/-- `cache[key] = entry`; prepending shadows any earlier binding, which
is observationally the JS key update. -/
def cacheSet {α : Type} (cache : List (String × CacheEntry α)) (k : String)
    (e : CacheEntry α) : List (String × CacheEntry α) :=
  (k, e) :: cache

/-- Splitting on the literal separator `||`, as JS `split('||')`. -/
def splitOnPipes : List Char → List (List Char)
  | [] => [[]]
  | '|' :: '|' :: rest =>
    [] :: splitOnPipes rest
  | c :: rest =>
    match splitOnPipes rest with
    | [] => [[c]]
    | h :: t => (c :: h) :: t

/-- JS `s.split('||')`. -/
def jsSplitPipes (s : String) : List String :=
  (splitOnPipes s.toList).map String.mk

/-- JS `s.trim()`. -/
def jsTrim (s : String) : String := String.mk (trimChars s.toList)

/-- `str.split('||').pop().trim()`: the last `||`-segment, trimmed. -/
def lastPipeSegment (s : String) : String :=
  jsTrim ((jsSplitPipes s).getLastD "")

/-- JS falsy test for an optional string: missing and `""` are falsy. -/
def jsTruthyS (o : Option String) : Option String :=
  match o with
  | some s => if s = "" then none else some s
  | none => none

/-- Raw recipe as returned by the `recipeByTitle` endpoint (the fields
the service reads; `servings` is the value of JS
`parseInt(rawRecipe.servings)`, `none` when missing or `NaN`). -/
structure RawRecipe where
  recipe_id : Option String := none
  Recipe_title : Option String := none
  servings : Option ℤ := none
  /-- `Calories` -/
  Calories : Option ℚ := none
  /-- `Processes` (a `||`-joined string) -/
  Processes : Option String := none
  deriving Repr

/-- Payload row of the `nutritioninfo` endpoint (keys used by
`processRecipeData`). -/
structure NutriRaw where
  /-- `Calories` -/
  Calories : Option ℚ := none
  /-- `Carbohydrate, by difference (g)` -/
  carbG : Option ℚ := none
  /-- `Protein (g)` -/
  proteinG : Option ℚ := none
  /-- `Total lipid (fat) (g)` -/
  fatG : Option ℚ := none
  /-- `Fiber, total dietary (g)` -/
  fiberG : Option ℚ := none
  /-- `Sugars, total (g)` -/
  sugarG : Option ℚ := none
  /-- `Sodium, Na (mg)` -/
  sodiumMg : Option ℚ := none
  deriving Repr

/-- The per-serving nutrition object built by the service. -/
structure RecipeNutrition where
  calories : ℚ
  carbs : ℚ
  protein : ℚ
  fat : ℚ
  fiber : ℚ
  sugar : ℚ
  sodium : ℚ
  source : String
  deriving DecidableEq, Repr

/-- The recipe object assembled by `getRecipe`; `raw` carries the
`...rawRecipe` spread of the API branch, the optional plain fields the
object literal of the local branch. -/
structure Recipe where
  raw : Option RawRecipe := none
  Recipe_title : Option String := none
  cooking_method : String
  cuisine : Option String := none
  category : Option String := none
  prep_time : Option String := none
  ingredients : List String := []
  description : Option String := none
  nutrition : RecipeNutrition
  source : String
  deriving Repr

/-- `field ? Math.round(parseFloat(field) / servings) : 0` for one
nutrition key (absent, `""`, and value `0` all produce `0`). -/
def perServe (servings : ℤ) (o : Option ℚ) : ℚ :=
  match o with
  | none => 0
  | some v => ((jsRound (v / (servings : ℚ))) : ℚ)

/-- `parseInt(rawRecipe.servings) || 1`. -/
def jsServings (o : Option ℤ) : ℤ :=
  match o with
  | none => 1
  | some n => if n = 0 then 1 else n

/-- `processRecipeData(rawRecipe, nutritionData)` (the two-argument
version of the first module): per-serving rounded nutrition from the
detailed payload when present, else the basic-calories shape; cooking
method is the trimmed last `||`-segment of `Processes`. -/
def processRecipeData (rawRecipe : RawRecipe) (nutritionData : Option NutriRaw) :
    Recipe :=
  let servings := jsServings rawRecipe.servings
  let nutrition : RecipeNutrition :=
    match nutritionData with
    | some nd =>
      { calories := perServe servings nd.Calories
        carbs := perServe servings nd.carbG
        protein := perServe servings nd.proteinG
        fat := perServe servings nd.fatG
        fiber := perServe servings nd.fiberG
        sugar := perServe servings nd.sugarG
        sodium := perServe servings nd.sodiumMg
        source := "RecipeDB API" }
    | none =>
      { calories := perServe servings rawRecipe.Calories
        carbs := 0, protein := 0, fat := 0, fiber := 0, sugar := 0, sodium := 0
        source := "RecipeDB API (basic)" }
  let cookingMethod :=
    match rawRecipe.Processes with
    | some p => lastPipeSegment p
    | none => ""
  { raw := some rawRecipe
    Recipe_title := rawRecipe.Recipe_title
    cooking_method := cookingMethod
    nutrition := nutrition
    source := "RecipeDB API" }

/-- What one per-serving field of the processed nutrition amounts to:
`0` when the key is absent, else the absolute value divided by the
serving count and rounded to the nearest integer — hence within `1/2`
of the exact quotient. -/
def perServingSpec (srv : ℤ) (field : Option ℚ) (out : ℚ) : Prop :=
  (field = none → out = 0) ∧
  ∀ v, field = some v →
    out = ((jsRound (v / (srv : ℚ))) : ℚ) ∧ |out - v / (srv : ℚ)| ≤ 1/2

/-- One `recipedb.json` entry. -/
structure LocalRecipe where
  name : String
  cooking_method : String
  cuisine : String
  category : String
  prep_time : String
  ingredients : List String
  description : String
  deriving Repr

/-- One `nutrition.json` entry as read by `getLocalRecipe`
(each numeric field passes through `|| 0`). -/
structure LocalNutrition where
  calories : Option ℚ := none
  carbs : Option ℚ := none
  protein : Option ℚ := none
  fat : Option ℚ := none
  fiber : Option ℚ := none
  sugar : Option ℚ := none
  sodium : Option ℚ := none
  deriving Repr

/-- The two bundled JSON datasets; `none` models `require` throwing
(caught, so the function answers `null`). -/
def LocalFiles : Type :=
  List (String × LocalRecipe) × List (String × LocalNutrition)

/-- `getLocalRecipe`: exact-key lookup in the bundled datasets. -/
def getLocalRecipe (files : Option LocalFiles) (foodName : String) :
    Option Recipe :=
  match files with
  | none => none
  | some (recipeData, nutritionData) =>
    let key := jsLowerTrim foodName
    match (recipeData.find? (fun kv => kv.1 == key)).map (fun kv => kv.2) with
    | none => none
    | some recipe =>
      let nutritionObj : RecipeNutrition :=
        match (nutritionData.find? (fun kv => kv.1 == key)).map (fun kv => kv.2) with
        | some nu =>
          { calories := nu.calories.getD 0
            carbs := nu.carbs.getD 0
            protein := nu.protein.getD 0
            fat := nu.fat.getD 0
            fiber := nu.fiber.getD 0
            sugar := nu.sugar.getD 0
            sodium := nu.sodium.getD 0
            source := "Local JSON" }
        | none =>
          { calories := 0, carbs := 0, protein := 0, fat := 0, fiber := 0
            sugar := 0, sodium := 0, source := "Local JSON (incomplete)" }
      some
        { Recipe_title := some recipe.name
          cooking_method := recipe.cooking_method
          cuisine := some recipe.cuisine
          category := some recipe.category
          prep_time := some recipe.prep_time
          ingredients := recipe.ingredients
          description := some recipe.description
          nutrition := nutritionObj
          source := "Local JSON" }

/-- Outcome of the `recipeByTitle` fetch inside `getRecipe`:
`data.data` is the (possibly empty) result list, `success` the JSON
flag; a missing `data.data` is the empty list. -/
inductive RecipeFetch where
  | netError
  | httpNotOk (status : ℕ)
  | ok (success : Bool) (data : List RawRecipe)
  deriving Repr

/-- Outcome of the nested `nutritioninfo` fetch. -/
inductive NutriFetch where
  | netError
  | httpNotOk (status : ℕ)
  | ok (success : Bool) (data : List NutriRaw)
  deriving Repr

/-- The nutrition payload `getRecipe` ends up using: first row when the
inner fetch was 2xx with `success` and a non-empty list, else `null`
(every failure of the inner fetch is caught). -/
def nutriOf : NutriFetch → Option NutriRaw
  | .ok true (nd :: _) => some nd
  | _ => none

/-- Output of one `getRecipe` call: the value returned to the caller,
the cache afterwards, and whether the remote API was consulted. -/
structure GetRecipeOut where
  result : Option Recipe
  cache : List (String × CacheEntry Recipe)
  fetched : Bool
  deriving Repr

/-- The non-cached path of `getRecipe`: the `try` block from the
`fetch` call on, including the local fallback of every failure arm. -/
def getRecipeFetchPath (cache : List (String × CacheEntry Recipe)) (now : ℕ)
    (cacheKey foodName : String) (fetch : RecipeFetch) (nfetch : NutriFetch)
    (files : Option LocalFiles) : GetRecipeOut :=
  match fetch with
  | .netError =>
    { result := getLocalRecipe files foodName, cache := cache, fetched := true }
  | .httpNotOk _ =>
    { result := getLocalRecipe files foodName, cache := cache, fetched := true }
  | .ok success data =>
    if success then
      match data with
      | [] =>
        { result := getLocalRecipe files foodName, cache := cache, fetched := true }
      | recipeBasic :: _ =>
        let recipe := processRecipeData recipeBasic (nutriOf nfetch)
        { result := some recipe
          cache := cacheSet cache cacheKey { data := recipe, timestamp := now }
          fetched := true }
    else
      { result := getLocalRecipe files foodName, cache := cache, fetched := true }

/-- `getRecipe(foodName)` (first module): fresh cache hit, else remote
fetch with nested nutrition fetch, else local fallback. -/
def getRecipe (cache : List (String × CacheEntry Recipe)) (now : ℕ)
    (foodName : String) (fetch : RecipeFetch) (nfetch : NutriFetch)
    (files : Option LocalFiles) : GetRecipeOut :=
  let cacheKey := jsLower foodName
  match cacheGet cache cacheKey with
  | some e =>
    if now < e.timestamp + CACHE_TTL then
      { result := some e.data, cache := cache, fetched := false }
    else
      getRecipeFetchPath cache now cacheKey foodName fetch nfetch files
  | none => getRecipeFetchPath cache now cacheKey foodName fetch nfetch files

/-- The search fetch outcomes in which the remote API yields no usable
result: network error, non-2xx status (429 included), or a 2xx payload
without `success`-plus-nonempty data. -/
def apiNoResult : RecipeFetch → Prop
  | .ok true (_ :: _) => False
  | _ => True

/-- No fresh cache entry sits under `key`: any entry present has
outlived the TTL. -/
def noFreshHit (cache : List (String × CacheEntry Recipe)) (key : String)
    (now : ℕ) : Prop :=
  ∀ e, cacheGet cache key = some e → ¬ now < e.timestamp + CACHE_TTL

/-- The bundled recipe dataset offers no row for this food: either
reading the file failed (`files = none`) or the exact-key lookup
misses. -/
def localNoEntry (files : Option LocalFiles) (foodName : String) : Prop :=
  ∀ fs : LocalFiles, files = some fs →
    fs.1.find? (fun kv => kv.1 == jsLowerTrim foodName) = none

/-! ### `searchRecipes(query, page, limit)` -/

/-- Raw element of the search payload; one optional field per key
spelling consulted by the robust key mapping. -/
structure RawSearchRecipe where
  /-- `Recipe_title` -/
  Recipe_title : Option String := none
  /-- `recipeTitle` -/
  recipeTitle : Option String := none
  /-- `title` -/
  title : Option String := none
  /-- `Recipe_id` -/
  Recipe_id : Option String := none
  /-- `recipeId` -/
  recipeId : Option String := none
  /-- `_id` -/
  underscoreId : Option String := none
  /-- `id` -/
  idKey : Option String := none
  /-- `Calories` -/
  Calories : Option ℚ := none
  /-- `Energy (kcal)` -/
  energyKcal : Option ℚ := none
  /-- `servings` -/
  servings : Option ℚ := none
  /-- `total_time` -/
  total_time : Option String := none
  /-- `totalTime` -/
  totalTime : Option String := none
  /-- `Region` -/
  Region : Option String := none
  /-- `region` -/
  region : Option String := none
  /-- `Sub_region` -/
  Sub_region : Option String := none
  /-- `category` -/
  category : Option String := none
  /-- `Carbohydrate, by difference (g)` -/
  carbG : Option ℚ := none
  /-- `Protein (g)` -/
  proteinG : Option ℚ := none
  /-- `Total lipid (fat) (g)` -/
  fatG : Option ℚ := none
  /-- `Ingredients` -/
  Ingredients : Option String := none
  /-- `Utensils` -/
  Utensils : Option String := none
  /-- `Processes` -/
  Processes : Option String := none
  /-- `vegan` -/
  vegan : Option String := none
  /-- `lacto_vegetarian` -/
  lacto_vegetarian : Option String := none
  /-- `ovo_vegetarian` -/
  ovo_vegetarian : Option String := none
  /-- `ovo_lacto_vegetarian` -/
  ovo_lacto_vegetarian : Option String := none
  deriving Repr

/-- Processed search result element. -/
structure SearchRecipe where
  id : Option String := none
  title : String
  calories : ℚ := 0
  servings : ℚ := 1
  totalTime : String := "N/A"
  region : Option String := none
  cuisine : Option String := none
  category : Option String := none
  carbs : ℚ := 0
  protein : ℚ := 0
  fat : ℚ := 0
  ingredients : List String := []
  utensils : List String := []
  processes : List String := []
  vegan : Bool := false
  vegetarian : Bool := false
  source : String
  deriving Repr

/-- The robust key mapping applied to each raw search element. -/
def processSearch (r : RawSearchRecipe) : SearchRecipe :=
  let title :=
    ((jsTruthyS r.Recipe_title).orElse (fun _ => jsTruthyS r.recipeTitle)
      |>.orElse (fun _ => jsTruthyS r.title)).getD "Unknown Recipe"
  { id :=
      (jsTruthyS r.Recipe_id).orElse (fun _ => jsTruthyS r.recipeId)
        |>.orElse (fun _ => jsTruthyS r.underscoreId)
        |>.orElse (fun _ => jsTruthyS r.idKey)
    title := title
    calories := ((jsTruthyQ r.Calories).orElse (fun _ => jsTruthyQ r.energyKcal)).getD 0
    servings := (jsTruthyQ r.servings).getD 1
    totalTime :=
      ((jsTruthyS r.total_time).orElse (fun _ => jsTruthyS r.totalTime)).getD "N/A"
    region := (jsTruthyS r.Region).orElse (fun _ => jsTruthyS r.region)
    cuisine := (jsTruthyS r.Region).orElse (fun _ => jsTruthyS r.region)
    category := (jsTruthyS r.Sub_region).orElse (fun _ => jsTruthyS r.category)
    carbs := (jsTruthyQ r.carbG).getD 0
    protein := (jsTruthyQ r.proteinG).getD 0
    fat := (jsTruthyQ r.fatG).getD 0
    ingredients := match jsTruthyS r.Ingredients with
      | some s => jsSplitPipes s
      | none => []
    utensils := match jsTruthyS r.Utensils with
      | some s => jsSplitPipes s
      | none => []
    processes := match jsTruthyS r.Processes with
      | some s => jsSplitPipes s
      | none => []
    vegan := r.vegan == some "1.0"
    vegetarian :=
      r.lacto_vegetarian == some "1.0" || r.ovo_vegetarian == some "1.0" ||
        r.ovo_lacto_vegetarian == some "1.0"
    source := "RecipeDB API" }

/-- The five hardcoded sample recipes (fields of the modelled shape;
keys no code path under verification reads are left out). -/
def sampleRecipes : List SearchRecipe :=
  [ { id := some "2612"
      title := "Balah el Sham (Egyptian Choux Pastry)"
      calories := 183, servings := 40, totalTime := "66"
      region := some "Middle Eastern", cuisine := some "Middle Eastern"
      category := some "Egyptian"
      carbs := 1007/100, protein := 63/100, fat := 25
      ingredients := ["All-purpose flour", "Water", "Vegetable oil", "Large eggs",
        "Granulated sugar", "Unsalted butter", "Vanilla extract"]
      vegan := false, vegetarian := true
      source := "Sample Data (API Rate Limited)" },
    { id := some "2613"
      title := "Magpie's Easy Falafel Cakes"
      calories := 409, servings := 3, totalTime := "60"
      region := some "Middle Eastern", cuisine := some "Middle Eastern"
      category := some "Egyptian"
      carbs := 7504/100, protein := 2262/100, fat := 2083/100
      ingredients := ["Chickpeas", "Onion", "Garlic", "Fresh parsley", "Cumin",
        "Coriander", "Flour", "Breadcrumbs", "Olive oil"]
      vegan := true, vegetarian := true
      source := "Sample Data (API Rate Limited)" },
    { id := some "2614"
      title := "Dukkah"
      calories := 45, servings := 24, totalTime := "25"
      region := some "Middle Eastern", cuisine := some "Middle Eastern"
      category := some "Egyptian"
      carbs := 346/100, protein := 109/100, fat := 305/100
      ingredients := ["Hazelnuts", "Sesame seeds", "Coriander seeds", "Cumin seeds",
        "Sea salt", "Black peppercorns"]
      vegan := true, vegetarian := true
      source := "Sample Data (API Rate Limited)" },
    { id := some "pizza_001"
      title := "Classic Margherita Pizza"
      calories := 266, servings := 8, totalTime := "95"
      region := some "European", cuisine := some "Italian"
      category := some "Italian"
      carbs := 33, protein := 11, fat := 10
      ingredients := ["Pizza dough", "San Marzano tomatoes", "Fresh mozzarella cheese",
        "Fresh basil leaves", "Extra virgin olive oil", "Sea salt"]
      vegan := false, vegetarian := true
      source := "Sample Data (API Rate Limited)" },
    { id := some "samosa_001"
      title := "Vegetable Samosa"
      calories := 252, servings := 12, totalTime := "50"
      region := some "South Asian", cuisine := some "Indian"
      category := some "Snack"
      carbs := 28, protein := 45/10, fat := 13
      ingredients := ["All-purpose flour", "Boiled potatoes", "Green peas",
        "Garam masala", "Cumin seeds", "Oil for frying", "Salt"]
      vegan := true, vegetarian := true
      source := "Sample Data (API Rate Limited)" } ]

/-- `getSampleRecipes(query)`: samples whose title contains the
lowercased query. -/
def getSampleRecipes (query : String) : List SearchRecipe :=
  let queryLower := jsLower query
  sampleRecipes.filter (fun r => jsIncludes (jsLower r.title) queryLower)

/-- Outcome of the search fetch; `allRecipes` is the reconciled
`data.payload?.data || data.data || []` list. -/
inductive SearchFetch where
  | netError
  | httpNotOk (status : ℕ)
  | ok (success : Bool) (allRecipes : List RawSearchRecipe)
  deriving Repr

/-- Output of one `searchRecipes` call. -/
structure SearchOut where
  result : List SearchRecipe
  cache : List (String × CacheEntry (List SearchRecipe))
  fetched : Bool
  deriving Repr

/-- The cache key `search_<query lowercased>_<page>_<limit>`. -/
def searchKey (query : String) (page limit : ℕ) : String :=
  "search_" ++ jsLower query ++ "_" ++ toString page ++ "_" ++ toString limit

/-- The non-cached path of `searchRecipes`: the remote payload is
processed and cached when `success` with at least one row, else the
sample fallback is answered (and nothing cached). -/
def searchFetchPath (cache : List (String × CacheEntry (List SearchRecipe)))
    (now : ℕ) (query cacheKey : String) (fetch : SearchFetch) : SearchOut :=
  match fetch with
  | .netError =>
    { result := getSampleRecipes query, cache := cache, fetched := true }
  | .httpNotOk _ =>
    { result := getSampleRecipes query, cache := cache, fetched := true }
  | .ok success allRecipes =>
    if success && decide (allRecipes.length > 0) then
      let processedRecipes := allRecipes.map processSearch
      { result := processedRecipes
        cache := cacheSet cache cacheKey { data := processedRecipes, timestamp := now }
        fetched := true }
    else
      { result := getSampleRecipes query, cache := cache, fetched := true }

/-- `searchRecipes(query, page, limit)`: a cached entry is consulted
only when fresh AND non-empty; otherwise `searchFetchPath` runs. -/
def searchRecipes (cache : List (String × CacheEntry (List SearchRecipe)))
    (now : ℕ) (query : String) (page limit : ℕ) (fetch : SearchFetch) :
    SearchOut :=
  let cacheKey := searchKey query page limit
  match cacheGet cache cacheKey with
  | some e =>
    if now < e.timestamp + CACHE_TTL ∧ e.data.length > 0 then
      { result := e.data, cache := cache, fetched := false }
    else searchFetchPath cache now query cacheKey fetch
  | none => searchFetchPath cache now query cacheKey fetch

/-! ### Concrete sample data for witnesses -/

/-- A nutrition row (shaped like a `nutrition.json` entry) used by
concrete witnesses. -/
def sampleNutrition : Nutrition :=
  { calories := 266, carbs := 33, protein := 11, fat := 10, fiber := 2,
    sugar := 4, sodium := 598, fried := false, refined := true }

/-- A non-fried similar-food candidate used by concrete witnesses. -/
def altGrilled : Alt :=
  { name := "grilled chicken burger", cooking_method := "grilled",
    calories := 300, similarity := 80, reason := "similar flavor profile",
    fried := false }

/-- A fried similar-food candidate used by concrete witnesses. -/
def altFried : Alt :=
  { name := "loaded fries", cooking_method := "deep fried",
    calories := 420, similarity := 70, reason := "shared toppings",
    fried := true }

/-- A one-entry flavor table used by concrete witnesses. -/
def sampleFlavorDb : List (String × FlavorEntry) :=
  [("burger", { similar_foods := [altGrilled, altFried] })]

/-! ## Theorems -/

/-- C5: `mapLabel` sends `"French_Fries"` to `"french fries"` (via the
space form of the normalised label), `"hamburger"` to `"burger"` (direct
table hit), and passes `"totally_unknown_xyz"` through as
`"totally unknown xyz"` since no table key matches exactly, in space
form, or by substring. -/
theorem mapLabel_spec_examples :
    mapLabel "French_Fries" = "french fries" ∧
    mapLabel "hamburger" = "burger" ∧
    mapLabel "totally_unknown_xyz" = "totally unknown xyz" :=
  ⟨by decide, by decide, by decide⟩

/-- C9: the route-level goal-weighted scorer treats `diabetes_friendly`
exactly as `balanced_diet`: any goal other than `weight_loss` and
`muscle_gain` falls into the balanced-diet `else` branch, so the two
scores agree on every nutrition input. -/
theorem calculateHealthScore_diabetes_eq_balanced (n : Nutrition) :
    calculateHealthScore n "diabetes_friendly" = calculateHealthScore n "balanced_diet" :=
  rfl

/-- C4: on fiber 5, protein 12, sugar 2, saturated fat 1, sodium 300,
calories 250 and one serving, the precision scorer returns
`(5*4 + 12*3) - (2*3 + 1*4 + 300/200 + 250/100) = 42` (one decimal) and
the `> 15` tier "Very Healthy". -/
theorem precisionHealth_example :
    (precisionHealth
      { servings := some 1, energyKcal := some 250, sugarsTotal := some 2,
        satFatTotal := some 1, sodiumNa := some 300, fiberTotal := some 5,
        proteinG := some 12 }).healthScore = 42 ∧
    (precisionHealth
      { servings := some 1, energyKcal := some 250, sugarsTotal := some 2,
        satFatTotal := some 1, sodiumNa := some 300, fiberTotal := some 5,
        proteinG := some 12 }).category = "Very Healthy" := by
  constructor <;>
    norm_num [precisionHealth, pick2, jsTruthyQ, jsRound1, jsRound]

/-- C10 counterexample: the underscores-only input `"_"` does NOT have
an empty normalisation (trim drops whitespace, not underscores, so the
normalised label is `"_"`), and the substring step first matches the
key `french_loaf`, answering `"burger"`, not `"pizza"`. -/
theorem mapLabel_underscore_not_pizza :
    normalizeLabel "_" ≠ "" ∧ mapLabel "_" ≠ "pizza" ∧ mapLabel "_" = "burger" :=
  ⟨by decide, by decide, by decide⟩

/-- C10 amended: for every input whose normalisation is the empty
string (the empty and whitespace-only inputs), the substring step
matches the first table entry, because every key contains the empty
string, so `mapLabel` answers `"pizza"` — and `isKnownFood` holds. -/
theorem mapLabel_empty_normalization (s : String)
    (h : normalizeLabel s = "") :
    mapLabel s = "pizza" ∧ isKnownFood s = true := by
  have h1 : mapLabel s = "pizza" := by
    unfold mapLabel
    rw [h]
    decide
  refine ⟨h1, ?_⟩
  unfold isKnownFood
  rw [h1]
  decide

/-- Witness for C10 at the concrete whitespace-only input `"  "`. -/
theorem mapLabel_empty_normalization_witness :
    mapLabel "  " = "pizza" ∧ isKnownFood "  " = true :=
  mapLabel_empty_normalization "  " (by decide)

/-- C1: whenever the nutrition lookup succeeds, the suitability verdict
is exactly "goal-adjusted score (base health score minus accumulated
penalty, floored at 0) at least 50 AND at most one reason"; with two
reasons the verdict is false no matter the score. -/
theorem evaluateSuitability_suitable_iff
    (db : List (String × Nutrition)) (foodName goal : String) (n : Nutrition)
    (h : getNutrition db foodName = some n) :
    (evaluateSuitability db foodName goal).reasons = (suitabilityChecks n goal).1 ∧
    (evaluateSuitability db foodName goal).score =
      max 0 ((computeHealthScore db foodName).getD 0 - (suitabilityChecks n goal).2) ∧
    ((evaluateSuitability db foodName goal).suitable = true ↔
      (50 ≤ (evaluateSuitability db foodName goal).score ∧
       (evaluateSuitability db foodName goal).reasons.length ≤ 1)) ∧
    ((evaluateSuitability db foodName goal).reasons.length = 2 →
      (evaluateSuitability db foodName goal).suitable = false) := by
  simp only [evaluateSuitability, h]
  refine ⟨trivial, trivial, ?_, ?_⟩
  · simp [Bool.and_eq_true, decide_eq_true_eq, ge_iff_le]
  · intro hlen
    simp only [Bool.and_eq_false_iff]
    right
    simp [hlen]

/-- Witness for C1 on a one-entry table and the weight-loss goal. -/
theorem evaluateSuitability_suitable_iff_witness :
    (evaluateSuitability [("pizza", sampleNutrition)] "pizza" "weight_loss").suitable = true ↔
      (50 ≤ (evaluateSuitability [("pizza", sampleNutrition)] "pizza" "weight_loss").score ∧
       (evaluateSuitability [("pizza", sampleNutrition)] "pizza" "weight_loss").reasons.length ≤ 1) :=
  (evaluateSuitability_suitable_iff [("pizza", sampleNutrition)] "pizza" "weight_loss"
    sampleNutrition (by decide)).2.2.1

/-- The similar-foods list answered by `getSimilarFoods` is the
`similar_foods` list of some table entry. -/
theorem getSimilarFoods_sub (db : List (String × FlavorEntry)) (food : String)
    (data : SimilarData) (h : getSimilarFoods db food = some data) :
    ∃ kv ∈ db, data.similar_foods = kv.2.similar_foods := by
  unfold getSimilarFoods at h
  cases hf : db.find? (fun kv => kv.1 == jsLowerTrim food) with
  | some kv =>
    simp only [hf] at h
    cases h
    exact ⟨kv, List.mem_of_find?_eq_some hf, rfl⟩
  | none =>
    simp only [hf] at h
    cases hg : db.find?
        (fun kv => jsIncludes kv.1 (jsLowerTrim food) || jsIncludes (jsLowerTrim food) kv.1) with
    | some kv =>
      simp only [hg] at h
      cases h
      exact ⟨kv, List.mem_of_find?_eq_some hg, rfl⟩
    | none => simp [hg] at h

/-- C2: for a flavor table whose `fried` flags agree with the cooking
methods (the spec's reading of the bundled dataset), the alternatives
returned for a fried original never have a frying cooking method, and
at most `limit` of them are returned. -/
theorem getHealthierAlternatives_excludes_fried
    (db : List (String × FlavorEntry)) (foodName : String) (limit : ℕ)
    (hdb : friedConsistent db) :
    (∀ alt ∈ getHealthierAlternatives db foodName true limit,
        methodIndicatesFrying alt.cooking_method = false) ∧
    (getHealthierAlternatives db foodName true limit).length ≤ limit := by
  constructor
  · intro alt halt
    unfold getHealthierAlternatives at halt
    cases hs : getSimilarFoods db foodName with
    | none => simp [hs] at halt
    | some data =>
      simp only [hs, if_true] at halt
      obtain ⟨a, ha, rfl⟩ := List.mem_map.mp halt
      have ha2 : a ∈ (data.similar_foods.filter (fun f => !f.fried)).insertionSort altLe :=
        List.mem_of_mem_take ha
      have ha3 : a ∈ data.similar_foods.filter (fun f => !f.fried) :=
        (List.mem_insertionSort altLe).mp ha2
      have ha4 := List.mem_filter.mp ha3
      obtain ⟨kv, hkv, hdata⟩ := getSimilarFoods_sub db foodName data hs
      have hcons := hdb kv hkv a (by rw [← hdata]; exact ha4.1)
      show methodIndicatesFrying a.cooking_method = false
      rw [← hcons]
      simpa using ha4.2
  · unfold getHealthierAlternatives
    cases hs : getSimilarFoods db foodName with
    | none => simp
    | some data =>
      simp only [hs, List.length_map, List.length_take]
      exact min_le_left _ _

/-- Witness for C2 on a one-entry flavor table with a fried and a
non-fried candidate. -/
theorem getHealthierAlternatives_excludes_fried_witness :
    (getHealthierAlternatives sampleFlavorDb "burger" true 3).length ≤ 3 :=
  (getHealthierAlternatives_excludes_fried sampleFlavorDb "burger" 3 (by decide)).2

/-- The comparator preorder coincides with the spec's description:
healthy cooking methods first, then ascending calories, then
descending similarity. -/
theorem altLe_iff (a b : Alt) : altLe a b ↔ specBefore a b := by
  unfold altLe altKey specBefore
  rw [Prod.Lex.le_iff]
  cases ha : isHealthyAlt a <;> cases hb : isHealthyAlt b <;>
    simp [Prod.Lex.le_iff, neg_le_neg_iff]

/-- C8: the returned alternatives are the first `limit` elements (with
the source stamp) of a reordering of the filtered candidates that is
sorted by: healthy-method allowlist first, then ascending calories,
then descending similarity. -/
theorem getHealthierAlternatives_sorted
    (db : List (String × FlavorEntry)) (foodName : String) (fried : Bool)
    (limit : ℕ) (data : SimilarData)
    (h : getSimilarFoods db foodName = some data) :
    ∃ l : List Alt,
      (if fried then data.similar_foods.filter (fun f => !f.fried)
        else data.similar_foods).Perm l ∧
      List.Sorted specBefore l ∧
      getHealthierAlternatives db foodName fried limit =
        (l.take limit).map markFlavorSource := by
  refine ⟨(if fried then data.similar_foods.filter (fun f => !f.fried)
    else data.similar_foods).insertionSort altLe, ?_, ?_, ?_⟩
  · exact (List.perm_insertionSort altLe _).symm
  · exact (List.sorted_insertionSort altLe _).imp (fun hab => (altLe_iff _ _).mp hab)
  · unfold getHealthierAlternatives
    rw [h]

/-- Witness for C8 on the concrete one-entry flavor table. -/
theorem getHealthierAlternatives_sorted_witness :
    ∃ l : List Alt,
      (if true then [altGrilled, altFried].filter (fun f => !f.fried)
        else [altGrilled, altFried]).Perm l ∧
      List.Sorted specBefore l ∧
      getHealthierAlternatives sampleFlavorDb "burger" true 3 =
        (l.take 3).map markFlavorSource :=
  getHealthierAlternatives_sorted sampleFlavorDb "burger" true 3
    { source := "FlavorDB", query := "burger",
      similar_foods := [altGrilled, altFried] } rfl

/-- Every arm of the non-cached search path reports a remote fetch. -/
theorem searchFetchPath_fetched (cache : List (String × CacheEntry (List SearchRecipe)))
    (now : ℕ) (query cacheKey : String) (fetch : SearchFetch) :
    (searchFetchPath cache now query cacheKey fetch).fetched = true := by
  cases fetch with
  | netError => rfl
  | httpNotOk s => rfl
  | ok success allRecipes =>
    simp only [searchFetchPath]
    split <;> rfl

/-- C3: `searchRecipes` skips the network exactly when the cache holds
an entry for the key that is younger than the TTL and non-empty — an
empty cached result list is never served — and a cache hit answers
that entry's data. -/
theorem searchRecipes_cache_hit_iff
    (cache : List (String × CacheEntry (List SearchRecipe))) (now : ℕ)
    (query : String) (page limit : ℕ) (fetch : SearchFetch) :
    ((searchRecipes cache now query page limit fetch).fetched = false ↔
      ∃ e, cacheGet cache (searchKey query page limit) = some e ∧
        now < e.timestamp + CACHE_TTL ∧ e.data ≠ []) ∧
    (∀ e, cacheGet cache (searchKey query page limit) = some e →
      (searchRecipes cache now query page limit fetch).fetched = false →
      (searchRecipes cache now query page limit fetch).result = e.data) := by
  cases hc : cacheGet cache (searchKey query page limit) with
  | none =>
    simp only [searchRecipes, hc, searchFetchPath_fetched]
    constructor
    · simp
    · intro e he
      cases he
  | some e =>
    by_cases hcond : now < e.timestamp + CACHE_TTL ∧ e.data.length > 0
    · simp only [searchRecipes, hc, if_pos hcond]
      refine ⟨⟨fun _ => ⟨e, rfl, hcond.1, List.length_pos.mp hcond.2⟩, fun _ => trivial⟩, ?_⟩
      intro e2 he2 _
      cases he2
      rfl
    · simp only [searchRecipes, hc, if_neg hcond, searchFetchPath_fetched]
      constructor
      · constructor
        · intro hfalse; cases hfalse
        · rintro ⟨e2, he2, hfresh, hne⟩
          cases he2
          exact absurd ⟨hfresh, List.length_pos.mpr hne⟩ hcond
      · intro e2 he2 hfetched
        cases hfetched

/-- Witness for C3: with an empty cache the network is consulted. -/
theorem searchRecipes_cache_hit_iff_witness :
    (searchRecipes [] 0 "samosa" 1 50 .netError).fetched = true := by
  have h := (searchRecipes_cache_hit_iff [] 0 "samosa" 1 50 .netError).1
  cases hf : (searchRecipes [] 0 "samosa" 1 50 .netError).fetched with
  | false =>
    obtain ⟨e, he, _⟩ := h.mp hf
    simp [cacheGet] at he
  | true => rfl

/-- C6: outside a fresh cache hit, every failing remote outcome —
network error, non-2xx status (429 included), or a payload without
results — makes `getRecipe` answer exactly the local fallback, and
when the local dataset misses too (or cannot be read) the answer is
`null`; no outcome escapes as an exception. -/
theorem getRecipe_fallback
    (cache : List (String × CacheEntry Recipe)) (now : ℕ) (foodName : String)
    (fetch : RecipeFetch) (nfetch : NutriFetch) (files : Option LocalFiles)
    (hmiss : noFreshHit cache (jsLower foodName) now)
    (hapi : apiNoResult fetch) :
    (getRecipe cache now foodName fetch nfetch files).result =
      getLocalRecipe files foodName ∧
    (localNoEntry files foodName →
      (getRecipe cache now foodName fetch nfetch files).result = none) := by
  have hfp : getRecipeFetchPath cache now (jsLower foodName) foodName fetch nfetch files =
      { result := getLocalRecipe files foodName, cache := cache, fetched := true } := by
    cases fetch with
    | netError => rfl
    | httpNotOk s => rfl
    | ok success data =>
      cases success with
      | false => rfl
      | true =>
        cases data with
        | nil => rfl
        | cons r rest => exact absurd hapi (by simp [apiNoResult])
  have hmain : (getRecipe cache now foodName fetch nfetch files).result =
      getLocalRecipe files foodName := by
    cases hc : cacheGet cache (jsLower foodName) with
    | none => simp only [getRecipe, hc, hfp]
    | some e =>
      have hne := hmiss e hc
      simp only [getRecipe, hc, if_neg hne, hfp]
  refine ⟨hmain, ?_⟩
  intro hlocal
  rw [hmain]
  cases hf : files with
  | none => rfl
  | some fs =>
    obtain ⟨rd, nd⟩ := fs
    have h5 : rd.find? (fun kv => kv.1 == jsLowerTrim foodName) = none :=
      hlocal (rd, nd) hf
    simp only [getLocalRecipe, h5, Option.map_none']

/-- Witness for C6: empty cache, HTTP 429, unreadable local files. -/
theorem getRecipe_fallback_witness :
    (getRecipe [] 0 "pizza" (.httpNotOk 429) .netError none).result = none := by
  have h := getRecipe_fallback [] 0 "pizza" (.httpNotOk 429) .netError none
    (fun e he => by simp [cacheGet] at he) trivial
  exact h.2 (fun fs hf => Option.noConfusion hf)

/-- `Math.round` lands within one half of its argument. -/
theorem jsRound_close (q : ℚ) : |((jsRound q : ℤ) : ℚ) - q| ≤ 1/2 := by
  unfold jsRound
  rw [abs_le]
  have h1 := Int.sub_one_lt_floor (q + 1/2)
  have h2 := Int.floor_le (q + 1/2)
  constructor <;> linarith

/-- Each per-serving field satisfies the rounded-quotient description. -/
theorem perServe_spec (srv : ℤ) (o : Option ℚ) :
    perServingSpec srv o (perServe srv o) := by
  constructor
  · intro h
    simp [perServe, h]
  · intro v h
    subst h
    exact ⟨rfl, jsRound_close _⟩

/-- C7 counterexample: with absolute calories 100 and 3 servings the
stored per-serving value is the rounded 33, which differs from the
exact quotient 100 / 3 — the claim's "equals the absolute API value
divided by the serving count" fails as stated. -/
theorem processRecipeData_division_counterexample :
    (processRecipeData { servings := some 3 }
      (some { Calories := some 100 })).nutrition.calories = 33 ∧
    ((33 : ℚ) ≠ 100 / 3) := by
  constructor
  · show ((jsRound ((100 : ℚ) / ((jsServings (some 3) : ℤ) : ℚ))) : ℚ) = 33
    norm_num [jsServings, jsRound, Int.floor_eq_iff]
  · norm_num

/-- C7 amended: each per-serving field is the absolute value divided by
the serving count and rounded to the nearest integer (hence within 1/2
of the exact quotient), `0` when the key is absent; a missing or
non-numeric serving count defaults to 1. -/
theorem processRecipeData_perServing (raw : RawRecipe) (nd : NutriRaw) :
    (raw.servings = none → jsServings raw.servings = 1) ∧
    perServingSpec (jsServings raw.servings) nd.Calories
      (processRecipeData raw (some nd)).nutrition.calories ∧
    perServingSpec (jsServings raw.servings) nd.carbG
      (processRecipeData raw (some nd)).nutrition.carbs ∧
    perServingSpec (jsServings raw.servings) nd.proteinG
      (processRecipeData raw (some nd)).nutrition.protein ∧
    perServingSpec (jsServings raw.servings) nd.fatG
      (processRecipeData raw (some nd)).nutrition.fat ∧
    perServingSpec (jsServings raw.servings) nd.fiberG
      (processRecipeData raw (some nd)).nutrition.fiber ∧
    perServingSpec (jsServings raw.servings) nd.sugarG
      (processRecipeData raw (some nd)).nutrition.sugar ∧
    perServingSpec (jsServings raw.servings) nd.sodiumMg
      (processRecipeData raw (some nd)).nutrition.sodium := by
  refine ⟨fun h => by simp [jsServings, h], ?_, ?_, ?_, ?_, ?_, ?_, ?_⟩ <;>
    exact perServe_spec _ _

/-- Witness for C7 at calories 100 over 3 servings. -/
theorem processRecipeData_perServing_witness :
    (processRecipeData { servings := some 3 }
        (some { Calories := some 100 })).nutrition.calories =
      ((jsRound ((100 : ℚ) / ((jsServings (some 3) : ℤ) : ℚ))) : ℚ) ∧
    |(processRecipeData { servings := some 3 }
        (some { Calories := some 100 })).nutrition.calories -
      (100 : ℚ) / ((jsServings (some 3) : ℤ) : ℚ)| ≤ 1/2 :=
  (processRecipeData_perServing _ _).2.1.2 100 rfl

end Food
